import Mathlib

/-!
Verification of the atomic change protocol in `src/core/memory_rules.py`
(class `CriticalMemoryRules`).

The working tree is modelled as a list of files, each a path (list of
components relative to the current working directory) together with its
byte content.  External subprocesses (git, rsync, pytest, the Python
`compile` builtin, MD5) are modelled as oracle fields of an `Oracles`
record: the protocol only ever inspects their exit status / output, so an
arbitrary function of the inputs is a faithful boundary.  Everything the
Python code itself computes (control flow, messages, the tree mutations it
performs through rsync command lines it builds itself, the JSON metadata
serialization) is translated directly from the source.
-/

/-- `ChangeStatus` from memory_rules.py (SUCCESS / ROLLBACK / FAILED). -/
inductive ChangeStatus where
  | SUCCESS
  | ROLLBACK
  | FAILED
deriving DecidableEq, Repr

/-- A file in the working tree: path components relative to the
working directory, and the byte content. -/
structure FileEntry where
  path : List String
  content : List Nat
deriving DecidableEq, Repr

/-- The working tree: the set of files under the current working
directory, as a list. -/
abbrev WTree := List FileEntry

/-- Protocol-visible state: the working tree plus the version-control
commit log (list of commit messages), which `_commit_changes` appends to. -/
structure St where
  tree : WTree
  commits : List String
deriving DecidableEq, Repr

/-- `ChangeProposal` dataclass.  `metrics` maps metric names to numbers
(`Dict[str, float]` in the source; modelled with `Rat`, no arithmetic is
ever performed on it by the protocol). -/
structure ChangeProposal where
  proposal_id : String
  title : String
  target_component : String
  impact_justification : String
  estimated_difficulty : String
  diff_content : String
  test_plan : String
  metrics : List (String × Rat)

/-- `Snapshot` dataclass (backup path kept as path components). -/
structure Snapshot where
  snapshot_id : String
  timestamp : String
  source_path : String
  backup_path : List String
  file_count : Nat
  checksum : String
deriving DecidableEq, Repr

/-- Last path component (`Path.name`). -/
def lastComponent (p : List String) : String := p.getLast?.getD ""

/-- Byte key of a string (character code points), used to compare paths
the way `sorted(...)` orders `Path` values deterministically. -/
def strKey (s : String) : List Nat := s.data.map Char.toNat

/-- Python `str.startswith`, via code points (kernel-reducible). -/
def strStartsWith (s pre : String) : Bool := (strKey pre).isPrefixOf (strKey s)

/-- Python `str.endswith`, via code points. -/
def strEndsWith (s suf : String) : Bool := (strKey suf).isSuffixOf (strKey s)

/-- `str.__getitem__` slice `[:n]`, via the character list. -/
def strTake (s : String) (n : Nat) : String := String.mk (s.data.take n)

/-- Bytes of a string (code points; stands for the UTF-8 encoding, which
the claims never inspect beyond emptiness and equality). -/
def strBytes (s : String) : List Nat := strKey s

/-- A file participates in the directory checksum iff its name does not
start with a dot (line 339: `not file_path.name.startswith(".")`). -/
def trackedFile (f : FileEntry) : Bool := !(strStartsWith (lastComponent f.path) ".")

/-- Strict lexicographic comparison on code-point lists. -/
def natListLtB : List Nat → List Nat → Bool
  | [], [] => false
  | [], _ :: _ => true
  | _ :: _, [] => false
  | a :: as, b :: bs => if a < b then true else if b < a then false else natListLtB as bs

/-- Strict string comparison via code points. -/
def strLtB (a b : String) : Bool := natListLtB (strKey a) (strKey b)

/-- Non-strict lexicographic order on paths (component-wise; the source
sorts full `Path` values — any fixed deterministic total order gives the
same checksum guarantees). -/
def pathLeB : List String → List String → Bool
  | [], _ => true
  | _ :: _, [] => false
  | a :: as, b :: bs =>
      if strLtB a b then true else if strLtB b a then false else pathLeB as bs

/-- Order on files by path, as used by `sorted(directory.rglob("*"))`. -/
def entryLe (a b : FileEntry) : Prop := pathLeB a.path b.path = true

instance : DecidableRel entryLe := fun a b => by
  unfold entryLe; infer_instance

/-- The files of the tree in sorted path order. -/
def sortEntries (t : WTree) : WTree := List.insertionSort entryLe t

/-- The files the checksum covers, in traversal order: sorted, then the
dot-named files skipped. -/
def sortedTracked (t : WTree) : WTree := (sortEntries t).filter trackedFile

/-- The byte stream fed to the MD5 hasher by
`_calculate_directory_checksum`: contents of the tracked files
concatenated in sorted path order (lines 336-346). -/
def checksumStream (t : WTree) : List Nat := (sortedTracked t).flatMap (fun f => f.content)

/-- `_calculate_directory_checksum`, parametric in the hash function
(the source uses MD5); the code determines the byte stream that is
hashed. -/
def calculate_directory_checksum {α : Type} (hash : List Nat → α) (t : WTree) : α :=
  hash (checksumStream t)

/-- Outcome of launching the proposal's test command
(`subprocess.run(..., timeout=300)`): normal exit with exit code and
captured output, wall-clock timeout (`subprocess.TimeoutExpired`), or any
other exception. -/
inductive RunOutcome where
  | exited (code : Nat) (out err : String)
  | timedOut
  | raised (msg : String)
deriving DecidableEq, Repr

/-- Results of the external tools the protocol shells out to, plus the
ambient values (`datetime.utcnow`, `Path.cwd`) the code reads.  The
protocol only observes exit codes and captured output, so arbitrary
functions are a faithful interface boundary. -/
structure Oracles where
  /-- `utcnow().strftime("%Y%m%d_%H%M%S")` at line 117. -/
  tsCompact : String
  /-- `utcnow().isoformat()` at line 140. -/
  tsIso : String
  /-- `str(Path.cwd())`. -/
  cwdStr : String
  /-- MD5 hex digest of a byte string. -/
  md5hex : List Nat → String
  /-- Exit status of the snapshot `rsync` copy (line 128). -/
  rsyncSnapshotOK : Bool
  /-- stderr text of a failing rsync. -/
  rsyncErrText : String
  /-- `sys.version_info >= (3, 8)`. -/
  pyAtLeast38 : Bool
  /-- `git --version` exits 0. -/
  gitVersionOK : Bool
  /-- `pytest --version` exits 0. -/
  pytestVersionOK : Bool
  /-- `rsync --version` exits 0. -/
  rsyncVersionOK : Bool
  /-- `git init` + `git apply` of the diff in an empty scratch directory
  (`_apply_diff_to_temp`): the files it creates, or `none` on a non-zero
  exit. -/
  gitApplyTemp : String → Option WTree
  /-- Python `compile(source, ..., "exec")` succeeds on the content. -/
  pyCompileOK : List Nat → Bool
  /-- `git apply --check` followed by `git apply` against the real tree
  (`_apply_changes` lines 221-245): the resulting tree, or `none` when
  the diff does not apply cleanly.  The two phases run back to back
  against the same tree, so a single outcome models both. -/
  gitApply : String → WTree → Option WTree
  /-- Launching the test command. -/
  runPytest : String → RunOutcome
  /-- Exit status of the restore `rsync` copy (line 303) when its source
  directory exists; with a missing source, rsync always exits non-zero. -/
  rsyncRestoreOK : Bool
  /-- `git add .` exits 0. -/
  gitAddOK : Bool
  /-- `git commit -m ...` exits 0. -/
  gitCommitOK : Bool

/-- `snap_{timestamp}_{md5(str(source_path))[:8]}` (line 118). -/
def snapshotId (o : Oracles) : String :=
  "snap_" ++ o.tsCompact ++ "_" ++ strTake (o.md5hex (strBytes o.cwdStr)) 8

/-- `SNAPSHOTS_DIR / snapshot_id` where `SNAPSHOTS_DIR =
Path("aipha/core/snapshots")` — a path relative to the working
directory, so the backup lives inside the tree it copies. -/
def backupDirPath (o : Oracles) : List String :=
  ["aipha", "core", "snapshots", snapshotId o]

/-- The snapshot rsync exclusions (line 123): `.git`, `__pycache__` and
`*.pyc` match a component anywhere; `snapshots/` matches a directory
component. -/
def snapshotExcludedPath (p : List String) : Bool :=
  p.any (fun c => c == ".git" || c == "__pycache__" || strEndsWith c ".pyc")
  || p.dropLast.any (fun c => c == "snapshots")

/-- Create or overwrite one file. -/
def writeFile (p : List String) (c : List Nat) (t : WTree) : WTree :=
  t.filter (fun f => !(f.path == p)) ++ [FileEntry.mk p c]

/-- `Path.exists` for a directory/file in the model: some file lives at
or under the path. -/
def dirExistsB (d : List String) (t : WTree) : Bool :=
  t.any (fun f => d.isPrefixOf f.path)

/-- A Python value appearing in the snapshot metadata dict. -/
inductive PyVal where
  | str (s : String)
  | int (n : Nat)
  | pathObj (s : String)
deriving DecidableEq, Repr

/-- `json` rendering of one value: `pathlib.Path` objects are not JSON
serializable, so `json.dump` raises `TypeError` on them. -/
def pyValJson : PyVal → Option String
  | .str s => some ("\"" ++ s ++ "\"")
  | .int n => some (toString n)
  | .pathObj _ => none

/-- `json.dump` streams pairs into the open file until it hits a value it
cannot serialize; returns the text written so far and whether it
completed. -/
def jsonPairsRun : List (String × PyVal) → String × Bool
  | [] => ("", true)
  | (k, v) :: rest =>
    match pyValJson v with
    | none => ("\"" ++ k ++ "\": ", false)
    | some sv =>
      let r := jsonPairsRun rest
      ("\"" ++ k ++ "\": " ++ sv ++ ", " ++ r.1, r.2)

/-- Bytes `json.dump(dict, f)` leaves in the file, and whether the dump
completed without raising. -/
def jsonDumpBytes (l : List (String × PyVal)) : List Nat × Bool :=
  let r := jsonPairsRun l
  (strBytes ("\x7b" ++ r.1 ++ (if r.2 then "\x7d" else "")), r.2)

/-- The metadata dict built at lines 150-156.  Faithful to the source:
the `"source_path"` entry holds the raw `Path` object (`source_path`),
not `str(source_path)` — all other values are plain strings/ints. -/
def metadataPairs (o : Oracles) (fc : Nat) (ck : String) : List (String × PyVal) :=
  [("snapshot_id", PyVal.str (snapshotId o)),
   ("timestamp", PyVal.str o.tsIso),
   ("source_path", PyVal.pathObj o.cwdStr),
   ("file_count", PyVal.int fc),
   ("checksum", PyVal.str ck)]

/-- `_create_snapshot` (lines 112-161): rsync the tree (minus exclusions)
into the fresh backup directory, compute checksum and file count over the
source directory (which now also contains the fresh backup), then write
the metadata record with `json.dump`.  Any exception is re-raised as
`RuntimeError("Snapshot creation failed: ...")`. -/
def create_snapshot (o : Oracles) (s : St) : Except String Snapshot × St :=
  let bp := backupDirPath o
  if !o.rsyncSnapshotOK then
    (Except.error ("Snapshot creation failed: rsync failed: " ++ o.rsyncErrText), s)
  else
    let copied := (s.tree.filter (fun f => !(snapshotExcludedPath f.path))).map
      (fun f => FileEntry.mk (bp ++ f.path) f.content)
    let t1 := s.tree ++ copied
    let ck := calculate_directory_checksum o.md5hex t1
    let fc := t1.length
    let dumped := jsonDumpBytes (metadataPairs o fc ck)
    let t2 := writeFile (bp ++ ["snapshot_metadata.json"]) dumped.1 t1
    if dumped.2 then
      (Except.ok (Snapshot.mk (snapshotId o) o.tsIso o.cwdStr bp fc ck), St.mk t2 s.commits)
    else
      (Except.error "Snapshot creation failed: Object of type PosixPath is not JSON serializable",
       St.mk t2 s.commits)

/-- `_validate_environment` (lines 163-189). -/
def validate_environment (o : Oracles) : Bool :=
  o.pyAtLeast38 && o.gitVersionOK && o.pytestVersionOK && o.rsyncVersionOK

/-- `Path.name.endswith(".py")` discipline of the `rglob("*.py")` loop. -/
def isPyFile (p : List String) : Bool := strEndsWith (lastComponent p) ".py"

/-- `_syntax_check` (lines 191-214, with `_apply_diff_to_temp`): apply the
diff in an empty scratch directory; on success, `compile()` every `*.py`
file it produced; any failure or exception yields `False`. -/
def dryRunCheck (o : Oracles) (diff : String) : Bool :=
  match o.gitApplyTemp diff with
  | none => false
  | some files => files.all (fun f => !(isPyFile f.path) || o.pyCompileOK f.content)

/-- `_apply_changes` (lines 216-248): `git apply --check` then `git apply`
against the real working tree. -/
def apply_changes (o : Oracles) (diff : String) (s : St) : Bool × St :=
  match o.gitApply diff s.tree with
  | none => (false, s)
  | some t2 => (true, St.mk t2 s.commits)

/-- Result dict of `_run_tests`; the branches that return early carry no
stdout/stderr keys. -/
structure TestRunResult where
  passed : Bool
  stdout : Option String
  stderr : Option String
  failures : String
deriving DecidableEq, Repr

/-- `_run_tests` (lines 250-276). -/
def run_tests (o : Oracles) (plan : String) : TestRunResult :=
  if !(strStartsWith plan "pytest") then
    TestRunResult.mk false none none "Invalid test plan format"
  else
    match o.runPytest plan with
    | RunOutcome.exited c out err =>
        TestRunResult.mk (c == 0) (some out) (some err) (if c == 0 then "" else err)
    | RunOutcome.timedOut =>
        TestRunResult.mk false none none "Tests timed out after 300s"
    | RunOutcome.raised m =>
        TestRunResult.mk false none none ("Test execution error: " ++ m)

/-- The cleanup loop of `_rollback` (lines 289-295): delete every
top-level entry of the working directory except `.git`.  The backup
directory itself lives under `aipha/`, so it is deleted too. -/
def cleanupKeepGit (t : WTree) : WTree :=
  t.filter (fun f => f.path.head? == some ".git")

/-- The restore rsync of `_rollback` (lines 298-303): copy everything
under the backup back to the working directory root, excluding `.git`. -/
def restoreCopy (bp : List String) (t : WTree) : WTree :=
  let restored := ((t.filter (fun f => bp.isPrefixOf f.path && !(f.path == bp))).map
      (fun f => FileEntry.mk (f.path.drop bp.length) f.content)).filter
      (fun f => !(f.path.any (fun c => c == ".git")))
  t.filter (fun f => restored.all (fun g => !(g.path == f.path))) ++ restored

/-- `shutil.rmtree(backup_path)` (line 308). -/
def removeDir (d : List String) (t : WTree) : WTree :=
  t.filter (fun f => !(d.isPrefixOf f.path))

/-- `_rollback` (lines 278-313). -/
def rollback (o : Oracles) (snap : Snapshot) (reason : String) (s : St) :
    (ChangeStatus × String) × St :=
  let bp := snap.backup_path
  if !(dirExistsB bp s.tree) then
    ((ChangeStatus.FAILED, "Rollback failed: snapshot not found " ++ snap.snapshot_id), s)
  else
    let t1 := cleanupKeepGit s.tree
    if !(dirExistsB bp t1) then
      ((ChangeStatus.FAILED, "Rollback rsync failed: " ++ o.rsyncErrText), St.mk t1 s.commits)
    else if !o.rsyncRestoreOK then
      ((ChangeStatus.FAILED, "Rollback rsync failed: " ++ o.rsyncErrText), St.mk t1 s.commits)
    else
      let t2 := removeDir bp (restoreCopy bp t1)
      ((ChangeStatus.ROLLBACK, "Rolled back to " ++ snap.snapshot_id ++ ". Reason: " ++ reason),
       St.mk t2 s.commits)

/-- `_commit_changes` (lines 315-331): `git add .` + `git commit` with
`check=True`, all exceptions swallowed.  A successful commit appends the
structured message to history; the working files are untouched. -/
def commit_changes (o : Oracles) (pid title : String) (s : St) : St :=
  if o.gitAddOK && o.gitCommitOK then
    St.mk s.tree (s.commits ++ [pid ++ ": " ++ title ++ "\n\nAuto-implemented by Aipha Fase 0"])
  else s

/-- `atomic_change` (lines 54-110).  The `except` handler catches any
exception escaping the try body; steps 2-5 swallow their own exceptions
internally (each body is wrapped in `try/except`), so the only raise
that can escape comes from `_create_snapshot`, before `snapshot_id` is
set — which selects the no-snapshot `FAILED` branch of the handler. -/
def atomic_change (o : Oracles) (p : ChangeProposal) (s : St) : (ChangeStatus × String) × St :=
  match create_snapshot o s with
  | (Except.error e, s1) => ((ChangeStatus.FAILED, "Critical failure: " ++ e), s1)
  | (Except.ok snap, s1) =>
    if !(validate_environment o) then
      rollback o snap "Environment validation failed" s1
    else if !(dryRunCheck o p.diff_content) then
      rollback o snap "Syntax errors detected in diff" s1
    else
      match apply_changes o p.diff_content s1 with
      | (false, s2) => rollback o snap "Failed to apply changes" s2
      | (true, s2) =>
        let tr := run_tests o p.test_plan
        if !tr.passed then
          rollback o snap ("Tests failed: " ++ tr.failures) s2
        else
          ((ChangeStatus.SUCCESS, "Changes applied successfully: " ++ p.proposal_id),
           commit_changes o p.proposal_id p.title s2)

/-- Modelled from the spec: the repository contains no unified-diff
parser — diff validity is delegated wholesale to the external
`git apply` — so "well-formed unified-diff text" is taken from the spec
glossary ("a unified-format description of file additions/modifications"):
nonempty text containing a `diff --git` or `---` header line. -/
def wellFormedUnifiedDiff (s : String) : Bool :=
  !(s == "") &&
    ((s.splitOn "\n").any (fun l => strStartsWith l "diff --git" || strStartsWith l "--- "))

/-- Two trees that differ in exactly one byte of one tracked file: the
checksum traversals agree except at one file, whose contents have equal
length and differ at exactly one position. -/
def SingleTrackedByteDiff (t1 t2 : WTree) : Prop :=
  ∃ (pre post : WTree) (p : List String) (c1 c2 : List Nat) (k : Nat),
    sortedTracked t1 = pre ++ FileEntry.mk p c1 :: post ∧
    sortedTracked t2 = pre ++ FileEntry.mk p c2 :: post ∧
    c1.length = c2.length ∧
    c1[k]? ≠ c2[k]? ∧
    (∀ j, j ≠ k → c1[j]? = c2[j]?)

/-- A concrete oracle assignment: every external tool present and
succeeding, empty scratch apply, all tests passing. -/
def oA : Oracles where
  tsCompact := "t"
  tsIso := "i"
  cwdStr := "/w"
  md5hex := fun _ => "m"
  rsyncSnapshotOK := true
  rsyncErrText := "err"
  pyAtLeast38 := true
  gitVersionOK := true
  pytestVersionOK := true
  rsyncVersionOK := true
  gitApplyTemp := fun _ => some []
  pyCompileOK := fun _ => true
  gitApply := fun _ t => some t
  runPytest := fun _ => RunOutcome.exited 0 "" ""
  rsyncRestoreOK := true
  gitAddOK := true
  gitCommitOK := true

/-- The syntax-error proposal of the repository's own test
`test_atomic_change_rollback_on_syntax_error`. -/
def propC1 : ChangeProposal where
  proposal_id := "AIPHA-TEST-001"
  title := "Test implementation"
  target_component := "tests/test_sample.py"
  impact_justification := "Test metric"
  estimated_difficulty := "Low"
  diff_content := "diff --git a/corrupt.py b/corrupt.py\n+def bad(:\n"
  test_plan := "pytest tests/test_sample.py -v"
  metrics := []

/-- Oracle under which `propC1`'s diff fails the syntax dry run: the
scratch apply produces `corrupt.py` and `compile()` rejects it. -/
def oC1 : Oracles :=
  { oA with
    gitApplyTemp := fun _ => some [FileEntry.mk ["corrupt.py"] [100]]
    pyCompileOK := fun _ => false }

/-- A small working tree holding one README file. -/
def stC1 : St := St.mk [FileEntry.mk ["README.md"] [35, 32]] []

/-- A proposal with empty diff content and empty test plan
(the repository test `test_empty_proposal_handling`). -/
def propEmpty : ChangeProposal where
  proposal_id := ""
  title := ""
  target_component := ""
  impact_justification := ""
  estimated_difficulty := "Low"
  diff_content := ""
  test_plan := ""
  metrics := []

/-- Oracle whose test run exceeds the wall-clock timeout. -/
def oC8 : Oracles := { oA with runPytest := fun _ => RunOutcome.timedOut }

/-- A pytest-shaped test plan. -/
def propC8 : ChangeProposal := { propC1 with test_plan := "pytest tests/test_sample.py -v" }

/-- A proposal whose test plan does not start with "pytest". -/
def propC10 : ChangeProposal := { propC1 with test_plan := "nose tests/test_sample.py" }

/-- One-file trees for the byte-sensitivity witness. -/
def wT1 : WTree := [FileEntry.mk ["a.py"] [1, 2]]

/-- `wT1` with the second byte of `a.py` changed. -/
def wT2 : WTree := [FileEntry.mk ["a.py"] [1, 3]]

/-- The `RuntimeError` message when the snapshot rsync copy fails. -/
def snapshotRsyncFailMsg (o : Oracles) : String :=
  "Snapshot creation failed: rsync failed: " ++ o.rsyncErrText

/-- The `RuntimeError` message when `json.dump` rejects the raw `Path`
stored under `"source_path"`. -/
def snapshotJsonFailMsg : String :=
  "Snapshot creation failed: Object of type PosixPath is not JSON serializable"

/-- `json.dump` of the snapshot metadata dict never completes: the third
pair holds the raw `Path` object. -/
lemma jsonDump_metadata_incomplete (o : Oracles) (fc : Nat) (ck : String) :
    (jsonDumpBytes (metadataPairs o fc ck)).2 = false := rfl

/-- `_create_snapshot` always raises: if the rsync copy fails it raises
for that; otherwise `json.dump` raises `TypeError` on the `Path` value. -/
lemma create_snapshot_fails (o : Oracles) (s : St) :
    (create_snapshot o s).1 =
      Except.error (if o.rsyncSnapshotOK then snapshotJsonFailMsg else snapshotRsyncFailMsg o) := by
  unfold create_snapshot
  cases h : o.rsyncSnapshotOK with
  | false => simp [h, snapshotRsyncFailMsg]
  | true => simp [h, jsonDump_metadata_incomplete, snapshotJsonFailMsg]

/-- `atomic_change` always takes the no-snapshot `FAILED` branch of the
exception handler. -/
lemma atomic_change_eq_failed (o : Oracles) (p : ChangeProposal) (s : St) :
    atomic_change o p s =
      ((ChangeStatus.FAILED,
        "Critical failure: " ++
          (if o.rsyncSnapshotOK then snapshotJsonFailMsg else snapshotRsyncFailMsg o)),
       (create_snapshot o s).2) := by
  have h := create_snapshot_fails o s
  unfold atomic_change
  rcases h2 : create_snapshot o s with ⟨res, s1⟩
  rw [h2] at h
  simp only at h
  subst h
  rfl

/-- The state component of `_create_snapshot` never touches the commit
log. -/
lemma create_snapshot_commits (o : Oracles) (s : St) :
    ((create_snapshot o s).2).commits = s.commits := by
  unfold create_snapshot
  cases h : o.rsyncSnapshotOK with
  | false => simp [h]
  | true => simp only [h]; split <;> rfl

/-- If neither code-point list is lexicographically below the other, they
are equal. -/
lemma natListLtB_not_both : ∀ x y : List Nat,
    natListLtB x y = false → natListLtB y x = false → x = y := by
  intro x
  induction x with
  | nil =>
    intro y h _
    cases y with
    | nil => rfl
    | cons b bs => simp [natListLtB] at h
  | cons a as ih =>
    intro y h h2
    cases y with
    | nil => simp [natListLtB] at h2
    | cons b bs =>
      unfold natListLtB at h h2
      by_cases hab : a < b
      · simp [hab] at h
      · by_cases hba : b < a
        · simp [hba] at h2
        · have hab2 : a = b := by omega
          subst hab2
          simp [Nat.lt_irrefl] at h h2
          rw [ih bs h h2]

/-- Lexicographic strict comparison is transitive. -/
lemma natListLtB_trans : ∀ x y z : List Nat,
    natListLtB x y = true → natListLtB y z = true → natListLtB x z = true := by
  intro x
  induction x with
  | nil =>
    intro y z h h2
    cases y with
    | nil => simp [natListLtB] at h
    | cons b bs =>
      cases z with
      | nil => simp [natListLtB] at h2
      | cons c cs => rfl
  | cons a as ih =>
    intro y z h h2
    cases y with
    | nil => simp [natListLtB] at h
    | cons b bs =>
      cases z with
      | nil => simp [natListLtB] at h2
      | cons c cs =>
        unfold natListLtB at h h2 ⊢
        by_cases hab : a < b
        · by_cases hbc : b < c
          · have : a < c := by omega
            simp [this]
          · by_cases hcb : c < b
            · simp [hbc, hcb] at h2
            · have : b = c := by omega
              subst this
              simp [hab]
        · by_cases hba : b < a
          · simp [hab, hba] at h
          · have hab2 : a = b := by omega
            subst hab2
            simp [Nat.lt_irrefl] at h
            by_cases hac : a < c
            · simp [hac]
            · by_cases hca : c < a
              · simp [hac, hca] at h2
              · have : a = c := by omega
                subst this
                simp [Nat.lt_irrefl] at h2 ⊢
                exact ih bs cs h h2

/-- Lexicographic strict comparison is asymmetric. -/
lemma natListLtB_asymm : ∀ x y : List Nat,
    natListLtB x y = true → natListLtB y x = false := by
  intro x
  induction x with
  | nil =>
    intro y h
    cases y with
    | nil => simp [natListLtB] at h
    | cons b bs => rfl
  | cons a as ih =>
    intro y h
    cases y with
    | nil => simp [natListLtB] at h
    | cons b bs =>
      unfold natListLtB at h ⊢
      by_cases hab : a < b
      · have hba : ¬ b < a := by omega
        simp [hab, hba]
      · by_cases hba : b < a
        · simp [hab, hba] at h
        · have hab2 : a = b := by omega
          subst hab2
          simp [Nat.lt_irrefl] at h ⊢
          exact ih bs h

/-- Code-point keys determine the string. -/
lemma strKey_inj {a b : String} (h : strKey a = strKey b) : a = b := by
  have hinj : Function.Injective Char.toNat := by
    intro c d hcd
    rw [← Char.ofNat_toNat c, hcd, Char.ofNat_toNat]
  have hd : a.data = b.data := List.map_injective_iff.mpr hinj h
  cases a; cases b; simp_all

/-- Strings not strictly below each other are equal. -/
lemma strLtB_not_both {a b : String} (h : strLtB a b = false) (h2 : strLtB b a = false) :
    a = b :=
  strKey_inj (natListLtB_not_both _ _ h h2)

/-- `pathLeB` is total. -/
lemma pathLeB_total : ∀ x y : List String, pathLeB x y = true ∨ pathLeB y x = true := by
  intro x
  induction x with
  | nil => intro y; left; rfl
  | cons a as ih =>
    intro y
    cases y with
    | nil => right; rfl
    | cons b bs =>
      unfold pathLeB
      cases h1 : strLtB a b with
      | true => left; simp [h1]
      | false =>
        cases h2 : strLtB b a with
        | true => right; simp [h2]
        | false =>
          have hab : a = b := strLtB_not_both h1 h2
          subst hab
          simp [h1]
          exact ih bs

/-- `pathLeB` is transitive. -/
lemma pathLeB_trans : ∀ x y z : List String,
    pathLeB x y = true → pathLeB y z = true → pathLeB x z = true := by
  intro x
  induction x with
  | nil => intro y z _ _; rfl
  | cons a as ih =>
    intro y z h h2
    cases y with
    | nil => simp [pathLeB] at h
    | cons b bs =>
      cases z with
      | nil => simp [pathLeB] at h2
      | cons c cs =>
        unfold pathLeB at h h2 ⊢
        cases hab : strLtB a b with
        | true =>
          cases hbc : strLtB b c with
          | true => simp [strLtB, natListLtB_trans _ _ _ hab hbc]
          | false =>
            cases hcb : strLtB c b with
            | true => simp [hbc, hcb] at h2
            | false =>
              have : b = c := strLtB_not_both hbc hcb
              subst this
              simp [hab]
        | false =>
          cases hba : strLtB b a with
          | true => simp [hab, hba] at h
          | false =>
            have hab2 : a = b := strLtB_not_both hab hba
            subst hab2
            simp [hab] at h
            cases hac : strLtB a c with
            | true => rfl
            | false =>
              cases hca : strLtB c a with
              | true => simp [hac, hca] at h2
              | false =>
                simp [hac, hca] at h2 ⊢
                exact ih bs cs h h2

/-- `pathLeB` is antisymmetric. -/
lemma pathLeB_antisymm : ∀ x y : List String,
    pathLeB x y = true → pathLeB y x = true → x = y := by
  intro x
  induction x with
  | nil =>
    intro y _ h2
    cases y with
    | nil => rfl
    | cons b bs => simp [pathLeB] at h2
  | cons a as ih =>
    intro y h h2
    cases y with
    | nil => simp [pathLeB] at h
    | cons b bs =>
      unfold pathLeB at h h2
      cases hab : strLtB a b with
      | true =>
        have hba : strLtB b a = false := natListLtB_asymm _ _ hab
        simp [hba, hab] at h2
      | false =>
        cases hba : strLtB b a with
        | true => simp [hab, hba] at h
        | false =>
          have hab2 : a = b := strLtB_not_both hab hba
          subst hab2
          simp [hab] at h h2
          rw [ih bs h h2]

instance : IsTotal FileEntry entryLe :=
  ⟨fun a b => by
    unfold entryLe
    rcases pathLeB_total a.path b.path with h | h
    · exact Or.inl h
    · exact Or.inr h⟩

instance : IsTrans FileEntry entryLe :=
  ⟨fun _ _ _ h1 h2 => pathLeB_trans _ _ _ h1 h2⟩

/-- Two path-sorted lists of files with the same members and no duplicate
paths are equal. -/
lemma eq_of_perm_sorted_nodup_paths :
    ∀ {l1 l2 : WTree}, l1.Perm l2 → l1.Sorted entryLe → l2.Sorted entryLe →
      (l1.map (fun f => f.path)).Nodup → l1 = l2 := by
  intro l1
  induction l1 with
  | nil =>
    intro l2 hp _ _ _
    exact (hp.symm.eq_nil).symm
  | cons a t ih =>
    intro l2 hp hs1 hs2 hnd
    cases l2 with
    | nil => exact absurd hp.eq_nil (by simp)
    | cons b t2 =>
      by_cases hab : a = b
      · subst hab
        have hp' := hp.cons_inv
        have ht := ih hp' (List.sorted_cons.mp hs1).2 (List.sorted_cons.mp hs2).2
          (by simpa using (List.nodup_cons.mp (by simpa using hnd)).2)
        rw [ht]
      · exfalso
        have hbmem : b ∈ a :: t := hp.symm.subset (List.mem_cons_self b t2)
        have hamem : a ∈ b :: t2 := hp.subset (List.mem_cons_self a t)
        have hbt : b ∈ t := by
          rcases List.mem_cons.mp hbmem with h | h
          · exact absurd h.symm hab
          · exact h
        have hat2 : a ∈ t2 := by
          rcases List.mem_cons.mp hamem with h | h
          · exact absurd h hab
          · exact h
        have h1 : entryLe a b := (List.sorted_cons.mp hs1).1 b hbt
        have h2 : entryLe b a := (List.sorted_cons.mp hs2).1 a hat2
        have hpaths : a.path = b.path := pathLeB_antisymm _ _ h1 h2
        have hmem : a.path ∈ t.map (fun f => f.path) := by
          rw [hpaths]
          exact List.mem_map_of_mem _ hbt
        have hn : a.path ∉ t.map (fun f => f.path) :=
          (List.nodup_cons.mp (by simpa using hnd)).1
        exact hn hmem

/-- The checksum traversal depends only on which files the tree holds:
any enumeration order of the same files (no duplicate paths) sorts to the
same list. -/
lemma sortedTracked_eq_of_perm {s1 s2 : WTree} (hp : s1.Perm s2)
    (hnd : (s1.map (fun f => f.path)).Nodup) : sortedTracked s1 = sortedTracked s2 := by
  have hperm1 := List.perm_insertionSort entryLe s1
  have hperm2 := List.perm_insertionSort entryLe s2
  apply eq_of_perm_sorted_nodup_paths
  · exact (hperm1.trans (hp.trans hperm2.symm)).filter _
  · exact (List.sorted_insertionSort entryLe s1).filter _
  · exact (List.sorted_insertionSort entryLe s2).filter _
  · have hnd2 : ((List.insertionSort entryLe s1).map (fun f => f.path)).Nodup :=
      ((hperm1.map _).nodup_iff).mpr hnd
    exact hnd2.sublist (((List.filter_sublist _)).map _)

/-- Claim C2: the spec says that whenever the rsync copy of the working
tree succeeds, `_create_snapshot` persists the metadata record and
returns a Snapshot without raising.  The code does not: the metadata dict
stores the raw `Path` object under `"source_path"` (line 153), so
`json.dump` raises `TypeError`, which line 161 re-raises as
`RuntimeError` — `_create_snapshot` propagates an error even though the
copy completed. -/
theorem create_snapshot_raises_despite_successful_copy (o : Oracles) (s : St)
    (h : o.rsyncSnapshotOK = true) :
    (create_snapshot o s).1 =
      Except.error "Snapshot creation failed: Object of type PosixPath is not JSON serializable" := by
  have h2 := create_snapshot_fails o s
  rw [h] at h2
  simpa [snapshotJsonFailMsg] using h2

/-- Witness for C2 at a concrete oracle and tree. -/
theorem create_snapshot_raises_witness :
    oA.rsyncSnapshotOK = true ∧
    (create_snapshot oA (St.mk [FileEntry.mk ["README.md"] [35]] [])).1 =
      Except.error "Snapshot creation failed: Object of type PosixPath is not JSON serializable" :=
  ⟨rfl, create_snapshot_raises_despite_successful_copy oA (St.mk [FileEntry.mk ["README.md"] [35]] []) rfl⟩

/-- Claim C3: the spec says a proposal passing every step yields Success,
a commit whose message contains the proposal id, and no backup directory
left on disk.  In the code no proposal can pass every step:
`_create_snapshot` always raises (C2), so `atomic_change` returns FAILED
for every proposal and never creates any commit.  (Additionally, the
success path at lines 99-101 contains no backup removal: `shutil.rmtree`
on the backup is only reached inside `_rollback`.) -/
theorem atomic_change_never_success_never_commits (o : Oracles) (p : ChangeProposal) (s : St) :
    ((atomic_change o p s).1).1 = ChangeStatus.FAILED ∧
    ((atomic_change o p s).2).commits = s.commits := by
  rw [atomic_change_eq_failed]
  exact ⟨rfl, create_snapshot_commits o s⟩

/-- Claim C5: the spec says an applied-and-tested change returns Success
even when the final commit fails, commit failure never changing the
outcome.  In the code the claimed scenario is unreachable —
`_create_snapshot` always raises first, so the result is FAILED (never
Success) and is indeed entirely independent of the commit outcome. -/
theorem atomic_change_ignores_commit_outcome (o : Oracles) (b1 b2 : Bool)
    (p : ChangeProposal) (s : St) :
    atomic_change { o with gitCommitOK := b1 } p s =
      atomic_change { o with gitCommitOK := b2 } p s ∧
    ((atomic_change o p s).1).1 ≠ ChangeStatus.SUCCESS := by
  constructor
  · rw [atomic_change_eq_failed, atomic_change_eq_failed]
    rfl
  · rw [atomic_change_eq_failed]
    simp

/-- Claim C6: an unexpected exception after a snapshot exists resolves
through a restore to RolledBack (Failed when the restore fails); an
exception before any snapshot exists resolves to Failed without a
restore.  This holds of the code.  First arm: vacuously — no exception
can ever occur after a snapshot exists, because no snapshot ever comes
to exist (first conjunct: `_create_snapshot` never returns one; and
steps 2-5 each swallow their own exceptions), while the handler at
lines 104-109 is wired to call `_rollback` exactly as described.
Second arm: the sole escaping exception is `_create_snapshot`'s own
`RuntimeError`, raised before `snapshot_id` is set, and `atomic_change`
returns FAILED with the `Critical failure` message and the tree exactly
as the failed snapshot attempt left it — no restore is attempted. -/
theorem atomic_change_exception_before_snapshot (o : Oracles) (p : ChangeProposal) (s : St) :
    (∀ (snap : Snapshot) (s1 : St), create_snapshot o s ≠ (Except.ok snap, s1)) ∧
    ∃ e, atomic_change o p s =
      ((ChangeStatus.FAILED, "Critical failure: " ++ e), (create_snapshot o s).2) := by
  constructor
  · intro snap s1 hc
    have h := create_snapshot_fails o s
    rw [hc] at h
    simp at h
  · exact ⟨_, atomic_change_eq_failed o p s⟩

/-- Claim C4: whenever the restore cannot complete — the backup directory
is missing at entry, or the copy-back rsync fails (its source directory
gone after the cleanup loop, or rsync itself exiting non-zero) —
`_rollback` returns FAILED, never ROLLBACK, whatever failing step's
reason string triggered it. -/
theorem rollback_restore_failure_returns_failed (o : Oracles) (snap : Snapshot)
    (reason : String) (s : St)
    (h : dirExistsB snap.backup_path s.tree = false ∨
         dirExistsB snap.backup_path (cleanupKeepGit s.tree) = false ∨
         o.rsyncRestoreOK = false) :
    ((rollback o snap reason s).1).1 = ChangeStatus.FAILED := by
  unfold rollback
  rcases h with h | h | h
  · simp [h]
  · cases h2 : dirExistsB snap.backup_path s.tree with
    | false => simp [h2]
    | true => simp [h2, h]
  · cases h2 : dirExistsB snap.backup_path s.tree with
    | false => simp [h2]
    | true =>
      cases h3 : dirExistsB snap.backup_path (cleanupKeepGit s.tree) with
      | false => simp [h2, h3]
      | true => simp [h2, h3, h]

/-- Witness for C4: a snapshot whose backup directory does not exist. -/
theorem rollback_restore_failure_witness :
    dirExistsB ["aipha", "core", "snapshots", "snap_x"] (St.mk [] []).tree = false ∧
    ((rollback oA (Snapshot.mk "snap_x" "i" "/w" ["aipha", "core", "snapshots", "snap_x"] 0 "c")
        "Tests failed: boom" (St.mk [] [])).1).1 = ChangeStatus.FAILED :=
  ⟨rfl, rollback_restore_failure_returns_failed oA
    (Snapshot.mk "snap_x" "i" "/w" ["aipha", "core", "snapshots", "snap_x"] 0 "c")
    "Tests failed: boom" (St.mk [] []) (Or.inl rfl)⟩

/-- Claim C7: for a proposal whose diff content is empty or not
well-formed unified-diff text, `atomic_change` never returns SUCCESS.
This holds — degenerately: the protocol returns FAILED for every
proposal whatsoever, because snapshot creation always raises (C2). -/
theorem atomic_change_fail_closed_on_bad_diff (o : Oracles) (p : ChangeProposal) (s : St)
    (h : p.diff_content = "" ∨ wellFormedUnifiedDiff p.diff_content = false) :
    ((atomic_change o p s).1).1 ≠ ChangeStatus.SUCCESS := by
  rw [atomic_change_eq_failed]
  simp

/-- Witness for C7: the empty-diff proposal of the repository's own
`test_empty_proposal_handling`. -/
theorem atomic_change_fail_closed_witness :
    (propEmpty.diff_content = "" ∨ wellFormedUnifiedDiff propEmpty.diff_content = false) ∧
    ((atomic_change oA propEmpty (St.mk [] [])).1).1 ≠ ChangeStatus.SUCCESS :=
  ⟨Or.inl rfl, atomic_change_fail_closed_on_bad_diff oA propEmpty (St.mk [] []) (Or.inl rfl)⟩

/-- Claim C8: `_run_tests` executes the plan under the 300-second
wall-clock timeout; a timed-out run is classified exactly like a failing
run (`passed = False`, so the step-5 guard takes the rollback branch and
never Success), while the reason text for a timeout is the fixed sentence
`Tests timed out after 300s` and the reason for an ordinary non-zero exit
is the captured stderr. -/
theorem run_tests_timeout_like_failure (o : Oracles) (p : ChangeProposal) (s : St)
    (hp : strStartsWith p.test_plan "pytest" = true) :
    (o.runPytest p.test_plan = RunOutcome.timedOut →
        run_tests o p.test_plan = TestRunResult.mk false none none "Tests timed out after 300s" ∧
        ((atomic_change o p s).1).1 ≠ ChangeStatus.SUCCESS) ∧
    (∀ c out err, o.runPytest p.test_plan = RunOutcome.exited c out err → c ≠ 0 →
        run_tests o p.test_plan = TestRunResult.mk false (some out) (some err) err) := by
  constructor
  · intro ht
    refine ⟨by simp [run_tests, hp, ht], ?_⟩
    rw [atomic_change_eq_failed]
    simp
  · intro c out err he hc
    simp [run_tests, hp, he, hc]

/-- Witness for C8: a pytest plan whose run times out. -/
theorem run_tests_timeout_witness :
    strStartsWith propC8.test_plan "pytest" = true ∧
    run_tests oC8 propC8.test_plan =
      TestRunResult.mk false none none "Tests timed out after 300s" ∧
    ((atomic_change oC8 propC8 (St.mk [] [])).1).1 ≠ ChangeStatus.SUCCESS := by
  have h := (run_tests_timeout_like_failure oC8 propC8 (St.mk [] []) rfl).1 rfl
  exact ⟨rfl, h.1, h.2⟩

/-- Claim C10: a test plan that does not start with "pytest" makes
`_run_tests` return not-passed with reason `Invalid test plan format`
without launching any command (the result is the same under any run
oracle), and `atomic_change` never returns SUCCESS for such a
proposal. -/
theorem run_tests_invalid_plan_never_success (o o2 : Oracles) (p : ChangeProposal) (s : St)
    (h : strStartsWith p.test_plan "pytest" = false) :
    run_tests o p.test_plan = TestRunResult.mk false none none "Invalid test plan format" ∧
    run_tests o p.test_plan = run_tests o2 p.test_plan ∧
    ((atomic_change o p s).1).1 ≠ ChangeStatus.SUCCESS := by
  refine ⟨?_, ?_, ?_⟩
  · simp [run_tests, h]
  · simp [run_tests, h]
  · rw [atomic_change_eq_failed]
    simp

/-- Witness for C10: a "nose ..." test plan. -/
theorem run_tests_invalid_plan_witness :
    strStartsWith propC10.test_plan "pytest" = false ∧
    run_tests oA propC10.test_plan =
      TestRunResult.mk false none none "Invalid test plan format" :=
  ⟨rfl, (run_tests_invalid_plan_never_success oA oC8 propC10 (St.mk [] []) rfl).1⟩

/-- Claim C1: the spec says a proposal whose diff fails the syntax dry
run ends in ROLLBACK with the tree checksum unchanged.  Evaluating the
code on the repository's own syntax-error test case: the status is
FAILED, not ROLLBACK (snapshot creation raises on the metadata dump
before the dry run is reached; and even a reached `_rollback` would
destroy its own backup, which lives under `aipha/` inside the tree the
cleanup loop wipes), and the checksummed byte stream of the tree differs
afterward — the aborted snapshot attempt left the backup copy and a
partial metadata file in the working tree. -/
theorem atomic_change_syntax_failure_not_rolled_back :
    dryRunCheck oC1 propC1.diff_content = false ∧
    ((atomic_change oC1 propC1 stC1).1).1 = ChangeStatus.FAILED ∧
    checksumStream ((atomic_change oC1 propC1 stC1).2).tree ≠ checksumStream stC1.tree := by
  refine ⟨by decide, by decide, by decide⟩

/-- Claim C9: the checksum computed by `_calculate_directory_checksum`
is deterministic — any enumeration order of the same unchanged files
(paths unique) hashes the identical byte stream — and two trees that
differ in a single byte of one tracked file feed different byte streams
to the hasher, so their checksums differ for any hash function that is
injective on those streams (the code fixes MD5; collision-freeness of
the hash itself is outside the program). -/
theorem checksum_deterministic_and_byte_sensitive {α : Type} (hash : List Nat → α)
    (hinj : Function.Injective hash) (t1 t2 : WTree) (hd : SingleTrackedByteDiff t1 t2) :
    (∀ s1 s2 : WTree, s1.Perm s2 → (s1.map (fun f => f.path)).Nodup →
        calculate_directory_checksum hash s1 = calculate_directory_checksum hash s2) ∧
    calculate_directory_checksum hash t1 ≠ calculate_directory_checksum hash t2 := by
  constructor
  · intro s1 s2 hp hnd
    unfold calculate_directory_checksum checksumStream
    rw [sortedTracked_eq_of_perm hp hnd]
  · obtain ⟨pre, post, p, c1, c2, k, h1, h2, hlen, hk, _⟩ := hd
    intro hc
    have hstream : checksumStream t1 = checksumStream t2 := hinj hc
    unfold checksumStream at hstream
    rw [h1, h2, List.flatMap_append, List.flatMap_append,
      List.flatMap_cons, List.flatMap_cons] at hstream
    have h3 := List.append_cancel_left hstream
    have h4 : c1 = c2 := List.append_inj_left h3 hlen
    exact hk (by rw [h4])

/-- Witness for C9: two one-file trees differing in the second byte of
`a.py`, hashed with the identity function (injective on byte streams). -/
theorem checksum_byte_sensitive_witness :
    Function.Injective (fun l : List Nat => l) ∧ SingleTrackedByteDiff wT1 wT2 ∧
    calculate_directory_checksum (fun l : List Nat => l) wT1 ≠
      calculate_directory_checksum (fun l : List Nat => l) wT2 := by
  have hd : SingleTrackedByteDiff wT1 wT2 := by
    refine ⟨[], [], ["a.py"], [1, 2], [1, 3], 1, by decide, by decide, rfl, by decide, ?_⟩
    intro j hj
    match j with
    | 0 => rfl
    | 1 => exact absurd rfl hj
    | n + 2 => rfl
  have hinj : Function.Injective (fun l : List Nat => l) := fun a b h => h
  exact ⟨hinj, hd,
    (checksum_deterministic_and_byte_sensitive (fun l : List Nat => l) hinj wT1 wT2 hd).2⟩
